import Mathlib

/-!
Verification of the `nikon` microscope driver (`src/nikon/microscope.py`)
against its natural-language specification.

Byte strings are modelled as `List Nat` (each element one byte, < 256).
Python's `bytes.ljust` / `bytes.rjust` / `struct.pack` calls are embedded as
explicit list operations, and the blocking read loop of `_request` is
modelled as a function over the (finite prefix of the) stream of response
frames delivered by the command-read endpoint.
-/

namespace Nikon

/-- `bytes.ljust(n, b"\x00")`: pad on the right with zero bytes to length `n`. -/
def ljust (xs : List Nat) (n : Nat) : List Nat :=
  xs ++ List.replicate (n - xs.length) 0

/-- `bytes.rjust(n, b"\x00")`: pad on the left with zero bytes to length `n`. -/
def rjust (xs : List Nat) (n : Nat) : List Nat :=
  List.replicate (n - xs.length) 0 ++ xs

/-- `struct.pack(">H", n)`: big-endian unsigned 16-bit encoding. -/
def packU16 (n : Nat) : List Nat :=
  [n / 256 % 256, n % 256]

/-- `struct.unpack(">H", ...)` of two bytes. -/
def unpackU16 (hi lo : Nat) : Nat :=
  hi * 256 + lo

/-- The frame written by `MicroscopeDevice._request`:
`payload.ljust(58, b"\x00") + b"\x30\x31" + struct.pack(">H", request_number)`. -/
def requestFrame (payload : List Nat) (reqId : Nat) : List Nat :=
  ljust payload 58 ++ [0x30, 0x31] ++ packU16 reqId

/-- The payload built by `MicroscopeDevice._call`:
`b"\x01\x00\x21\xff\x00\x00" + bytes([call_type]) + payload.rjust(4, b"\x00")`. -/
def callPayload (callType : Nat) (arg : List Nat) : List Nat :=
  [0x01, 0x00, 0x21, 0xff, 0x00, 0x00] ++ [callType] ++ rjust arg 4

/-- The full 62-byte frame written by `_call` via `_request`. -/
def callFrame (callType : Nat) (arg : List Nat) (reqId : Nat) : List Nat :=
  requestFrame (callPayload callType arg) reqId

/-- The identifier embedded in a response frame:
`struct.unpack(">H", response[60:])`. -/
def frameId (f : List Nat) : Nat :=
  unpackU16 (f.getD 60 0) (f.getD 61 0)

/-- The read loop of `_request`: keep reading 62-byte frames from endpoint
`0x81`, returning the first one whose trailing identifier matches the request
identifier and discarding all others.  The argument lists the frames the
endpoint delivers, in order; `none` means the stream is exhausted without a
match (in the source, the next blocking read would then time out). -/
def findResponse (reqId : Nat) : List (List Nat) → Option (List Nat)
  | [] => none
  | f :: rest => if frameId f = reqId then some f else findResponse reqId rest

/-- The counter advance performed by `_request`:
`self._next_request_number = (self._next_request_number + 1) % 0xffff`. -/
def nextRequestNumber (n : Nat) : Nat :=
  (n + 1) % 0xffff

/-- The identifier consumed by the `k`-th request when the counter starts at
`start` (the constructor initializes it with `random.randrange(0xffff)`, so
`start < 0xffff`); each request consumes the current counter value and then
advances it with `nextRequestNumber`. -/
def requestIdAt (start k : Nat) : Nat :=
  Nat.iterate nextRequestNumber k start

/-- A decoded status event (the `StatusEvent` dataclass).  `dia` is a float
in the source; it is modelled as a rational. -/
structure StatusEvent where
  condenser : Int
  dia : ℚ
  filter : Int
  light : Bool
  objective : Int
  optical_path : Int
  shutter : Bool
  x : Int
  y : Int
  z : Int
  zoom : Int
  deriving Repr, DecidableEq

/-- Byte `i` of a frame. -/
def byteAt (d : List Nat) (i : Nat) : Nat :=
  d.getD i 0

/-- Big-endian unsigned 16-bit field at offset `i` (`struct` format `H`). -/
def u16at (d : List Nat) (i : Nat) : Nat :=
  byteAt d i * 256 + byteAt d (i + 1)

/-- Two's-complement value of a 32-bit unsigned reading (`struct` format
`i` interprets the 4 bytes as a signed big-endian integer). -/
def toSigned32 (n : Nat) : Int :=
  if n < 2 ^ 31 then (n : Int) else (n : Int) - 2 ^ 32

/-- Signed 32-bit big-endian field at offset `i`. -/
def i32at (d : List Nat) (i : Nat) : Int :=
  toSigned32 (byteAt d i * 2 ^ 24 + byteAt d (i + 1) * 2 ^ 16
    + byteAt d (i + 2) * 2 ^ 8 + byteAt d (i + 3))

/-- `MicroscopeDevice.get_event`: unpack a 64-byte event frame with format
`>xxxBBBxxBxixxxxixxxxixxxxH?7xB19x` — raw bytes at offsets 3 (objective),
4 (condenser), 5 (filter/shutter), 8 (optical path), signed 32-bit fields at
offsets 10 (z), 18 (x), 26 (y), an unsigned 16-bit field at offset 34 (dia
raw), a boolean at offset 36 (light) and a byte at offset 44 (zoom raw) —
and build the `StatusEvent` with the source's derived-value formulas.
`struct.unpack` fails unless the buffer is exactly 64 bytes. -/
def decodeStatusEvent (d : List Nat) : Option StatusEvent :=
  if d.length = 64 then
    some
      { condenser := (byteAt d 4 : Int) - 1
        dia := ((u16at d 34 : ℚ) - 1) / 2099
        filter := ((byteAt d 5 % 16 : Nat) : Int) - 1
        light := decide (byteAt d 36 ≠ 0)
        objective := (byteAt d 3 : Int) - 1
        optical_path := (byteAt d 8 : Int) - 1
        shutter := decide (byteAt d 5 ≥ 0x10)
        x := i32at d 18
        y := i32at d 26
        z := i32at d 10
        zoom := (byteAt d 44 : Int) - 0x40 }
  else none

/-- The spec's example status frame: objective raw 3 (offset 3), condenser
raw 1 (offset 4), filter/shutter byte `0x11` (offset 5), optical-path raw 2
(offset 8), z = 1000 (offsets 10–13), x = 500 (18–21), y = 250 (26–29),
dia raw = 1050 (34–35), light byte 1 (36), zoom raw `0x41` (offset 44). -/
def exampleStatusFrame : List Nat :=
  [0, 0, 0, 3, 1, 0x11, 0, 0, 2, 0,
   0, 0, 0x03, 0xe8, 0, 0, 0, 0,
   0, 0, 0x01, 0xf4, 0, 0, 0, 0,
   0, 0, 0, 0xfa, 0, 0, 0, 0,
   0x04, 0x1a, 1, 0, 0, 0, 0, 0, 0, 0,
   0x41] ++ List.replicate 19 0

/-- Failures of the engine, named as in the spec's error taxonomy (§7).
`outOfRange` is the failure of a range `assert` in a setter; `packError`
is a `struct.pack` argument-range failure; `noStatus` is the failure of
the very first read of `get_stable_status`. -/
inductive NikonError where
  | outOfRange
  | packError
  | noStatus
  deriving Repr, DecidableEq

/-- Python's built-in `round`: round to nearest, ties to even. -/
def pyRound (q : ℚ) : Int :=
  if q - (⌊q⌋ : ℚ) < 1 / 2 then ⌊q⌋
  else if 1 / 2 < q - (⌊q⌋ : ℚ) then ⌊q⌋ + 1
  else if 2 ∣ ⌊q⌋ then ⌊q⌋ else ⌊q⌋ + 1

/-- Diaphragm encoding in `set_dia`: `round(value * 2099.0 + 1.0)`
(floats modelled as rationals). -/
def encodeDia (v : ℚ) : Int :=
  pyRound (v * 2099 + 1)

/-- Diaphragm decoding in `get_event`: `(raw - 1) / 2099.0`. -/
def decodeDia (raw : Int) : ℚ :=
  ((raw : ℚ) - 1) / 2099

/-- Big-endian signed 32-bit (two's-complement) encoding, the byte string
produced by `struct.pack(">i", v)` for an in-range `v`. -/
def i32be (v : Int) : List Nat :=
  [(v % 2 ^ 32).toNat / 2 ^ 24 % 256, (v % 2 ^ 32).toNat / 2 ^ 16 % 256,
   (v % 2 ^ 32).toNat / 2 ^ 8 % 256, (v % 2 ^ 32).toNat % 256]

/-- `struct.pack(">i", v)`: fails (`struct.error`) unless
`-2^31 ≤ v < 2^31`. -/
def packI32 (v : Int) : Except NikonError (List Nat) :=
  if -2 ^ 31 ≤ v ∧ v < 2 ^ 31 then .ok (i32be v) else .error .packError

/-- `set_objective`: `assert 0 <= value < 6`, then call type `0x80` with
argument `struct.pack(">B", value + 1)`.  The returned value is the single
frame written; an `.error` result is raised before any write. -/
def set_objective (reqId : Nat) (value : Int) : Except NikonError (List Nat) :=
  if 0 ≤ value ∧ value < 6 then
    .ok (callFrame 0x80 [(value + 1).toNat] reqId)
  else .error .outOfRange

/-- `set_filter`: `assert 0 <= value < 6`, then call type `0x8c` with
argument `struct.pack(">H", value + 1)`. -/
def set_filter (reqId : Nat) (value : Int) : Except NikonError (List Nat) :=
  if 0 ≤ value ∧ value < 6 then
    .ok (callFrame 0x8c (packU16 (value + 1).toNat) reqId)
  else .error .outOfRange

/-- `set_condenser`: `assert 0 <= value < 7`, then call type `0x88` with
argument `struct.pack(">H", value + 1)`. -/
def set_condenser (reqId : Nat) (value : Int) : Except NikonError (List Nat) :=
  if 0 ≤ value ∧ value < 7 then
    .ok (callFrame 0x88 (packU16 (value + 1).toNat) reqId)
  else .error .outOfRange

/-- `set_optical_path`: `assert 0 <= value < 4`, then call type `0x98`
with argument `struct.pack(">B", value + 1)`. -/
def set_optical_path (reqId : Nat) (value : Int) : Except NikonError (List Nat) :=
  if 0 ≤ value ∧ value < 4 then
    .ok (callFrame 0x98 [(value + 1).toNat] reqId)
  else .error .outOfRange

/-- `set_dia`: `assert 0.0 <= value <= 1.0`, then call type `0xb5` with
argument `struct.pack(">H", round(value * 2099.0 + 1.0))`. -/
def set_dia (reqId : Nat) (value : ℚ) : Except NikonError (List Nat) :=
  if 0 ≤ value ∧ value ≤ 1 then
    .ok (callFrame 0xb5 (packU16 (encodeDia value).toNat) reqId)
  else .error .outOfRange

/-- `set_x`: no range `assert`; call type `0xa8` with argument
`struct.pack(">i", value)`. -/
def set_x (reqId : Nat) (value : Int) : Except NikonError (List Nat) :=
  (packI32 value).map fun arg => callFrame 0xa8 arg reqId

/-- `set_y`: no range `assert`; call type `0xac` with argument
`struct.pack(">i", value)`. -/
def set_y (reqId : Nat) (value : Int) : Except NikonError (List Nat) :=
  (packI32 value).map fun arg => callFrame 0xac arg reqId

/-- `set_z`: no range `assert`; call type `0xa0` with argument
`struct.pack(">i", value)`. -/
def set_z (reqId : Nat) (value : Int) : Except NikonError (List Nat) :=
  (packI32 value).map fun arg => callFrame 0xa0 arg reqId

/-- Atomic actions of a public operation, for the locking discipline:
entering/leaving `async with self._lock`, and the identifier allocation,
endpoint-`0x01` write and endpoint-`0x81` correlation read loop performed
by `_request`. -/
inductive Action where
  | acquire
  | release
  | allocate
  | write
  | read
  deriving Repr, DecidableEq

/-- The action trace of one `_request` call: allocate the identifier,
write the frame, run the correlation read loop. -/
def requestActions : List Action :=
  [.allocate, .write, .read]

/-- A `_request` wrapped in `async with self._lock`. -/
def lockedRequest : List Action :=
  [.acquire] ++ requestActions ++ [.release]

/-- `wellLockedFrom d t` is `true` when, starting at lock depth `d`, every
allocation, write and read in `t` happens at positive depth and no release
occurs at depth zero: the operation holds the lock from identifier
allocation through response correlation. -/
def wellLockedFrom : Nat → List Action → Bool
  | _, [] => true
  | d, .acquire :: rest => wellLockedFrom (d + 1) rest
  | d, .release :: rest => decide (0 < d) && wellLockedFrom (d - 1) rest
  | d, .allocate :: rest => decide (0 < d) && wellLockedFrom d rest
  | d, .write :: rest => decide (0 < d) && wellLockedFrom d rest
  | d, .read :: rest => decide (0 < d) && wellLockedFrom d rest

/-- An operation holds the lock around all of its request actions. -/
def wellLocked (t : List Action) : Bool :=
  wellLockedFrom 0 t

/-- `get_firmware_cpu_version`: one `_request` under `async with self._lock`. -/
def get_firmware_cpu_version_actions : List Action := lockedRequest

/-- `get_version`: one `_request` under `async with self._lock`. -/
def get_version_actions : List Action := lockedRequest

/-- `_get_label` (used by every label getter): one `_request` under
`async with self._lock`. -/
def get_label_actions : List Action := lockedRequest

/-- `get_objective_info`: one `_request` under `async with self._lock`. -/
def get_objective_info_actions : List Action := lockedRequest

/-- `_get_bound`: one `_request` with no lock acquisition. -/
def get_bound_actions : List Action := requestActions

/-- `get_x_bounds`: two `_get_bound` calls, no lock acquisition. -/
def get_x_bounds_actions : List Action := get_bound_actions ++ get_bound_actions

/-- `get_y_bounds`: two `_get_bound` calls, no lock acquisition. -/
def get_y_bounds_actions : List Action := get_bound_actions ++ get_bound_actions

/-- `get_z_bound`: one `_get_bound` call, no lock acquisition. -/
def get_z_bound_actions : List Action := get_bound_actions

/-- `set_x`: one `_call` under `async with self._lock`. -/
def set_x_actions : List Action := lockedRequest

/-- `set_y`: one `_call` under `async with self._lock`. -/
def set_y_actions : List Action := lockedRequest

/-- `set_z`: one `_call` under `async with self._lock`. -/
def set_z_actions : List Action := lockedRequest

/-- `set_condenser`: one `_call` under `async with self._lock`. -/
def set_condenser_actions : List Action := lockedRequest

/-- `set_dia`: one `_call` under `async with self._lock`. -/
def set_dia_actions : List Action := lockedRequest

/-- `set_filter`: one `_call` under `async with self._lock`. -/
def set_filter_actions : List Action := lockedRequest

/-- `set_light`: one `_call` under `async with self._lock`. -/
def set_light_actions : List Action := lockedRequest

/-- `set_objective`: one `_call` under `async with self._lock`. -/
def set_objective_actions : List Action := lockedRequest

/-- `set_optical_path`: one `_call` under `async with self._lock`. -/
def set_optical_path_actions : List Action := lockedRequest

/-- `set_shutter`: one `_call` under `async with self._lock`. -/
def set_shutter_actions : List Action := lockedRequest

/-- `set_button_function`: one `_request` under `async with self._lock`. -/
def set_button_function_actions : List Action := lockedRequest

/-- The `while True` loop of `get_stable_status`, modelled over the trace
of read attempts: each entry is `some e` when `asyncio.wait_for` delivered
an event `e` within `idle_duration`, and `none` when it raised
`TimeoutError`.  The loop keeps the most recent event and returns it at
the first timeout; `none` means the modelled trace ended before any
timeout (in the source the loop would still be waiting). -/
def stableLoop (s : StatusEvent) : List (Option StatusEvent) → Option StatusEvent
  | [] => none
  | none :: _ => some s
  | some e :: rest => stableLoop e rest

/-- `get_stable_status`: the initial `get_status()` read comes first
(failing with the spec's `NoStatus` when it times out), then the
`stableLoop` timeout loop runs over the remaining read attempts. -/
def get_stable_status :
    List (Option StatusEvent) → Option (Except NikonError StatusEvent)
  | [] => none
  | none :: _ => some (.error .noStatus)
  | some e :: rest => (stableLoop e rest).map .ok

end Nikon

namespace Nikon

/-- C1: the correlation loop returns exactly the first frame whose trailing
identifier matches, discarding every earlier non-matching frame without
returning it and without raising an error. -/
theorem findResponse_first_match (reqId : Nat) (pre post : List (List Nat))
    (f : List Nat) (hpre : ∀ g ∈ pre, frameId g ≠ reqId)
    (hf : frameId f = reqId) :
    findResponse reqId (pre ++ f :: post) = some f := by
  induction pre with
  | nil => simp [findResponse, hf]
  | cons g rest ih =>
    have hg : frameId g ≠ reqId := hpre g (by simp)
    simp only [List.cons_append, findResponse, if_neg hg]
    exact ih fun x hx => hpre x (by simp [hx])

/-- C2: for every call-type code and argument of at most 4 bytes, the
encoded command frame is exactly 62 bytes: the 6-byte header
`01 00 21 FF 00 00`, the call-type byte, the argument left-padded with zero
bytes to 4 bytes, trailing zero padding to 58 bytes, the marker `30 31`, and
the big-endian 16-bit identifier. -/
theorem callFrame_layout (callType : Nat) (arg : List Nat) (reqId : Nat)
    (harg : arg.length ≤ 4) (hid : reqId < 65536) :
    (callFrame callType arg reqId).length = 62 ∧
    callFrame callType arg reqId =
      [0x01, 0x00, 0x21, 0xff, 0x00, 0x00] ++ [callType]
        ++ (List.replicate (4 - arg.length) 0 ++ arg)
        ++ List.replicate 47 0 ++ [0x30, 0x31] ++ [reqId / 256, reqId % 256] := by
  have h4 : 4 - arg.length + arg.length = 4 := by omega
  have hmod : reqId / 256 % 256 = reqId / 256 := by omega
  constructor
  · simp [callFrame, requestFrame, callPayload, ljust, rjust, packU16]
    omega
  · simp [callFrame, requestFrame, callPayload, ljust, rjust, packU16, h4, hmod]

/-- Witness for C2 at the concrete `set_x(1000)` call: call type `0xa8`,
argument `00 00 03 E8`, identifier `0x1234`. -/
theorem callFrame_layout_witness :
    (callFrame 0xa8 [0, 0, 3, 0xe8] 0x1234).length = 62 ∧
    callFrame 0xa8 [0, 0, 3, 0xe8] 0x1234 =
      [0x01, 0x00, 0x21, 0xff, 0x00, 0x00] ++ [0xa8]
        ++ (List.replicate (4 - [0, 0, 3, 0xe8].length) 0 ++ [0, 0, 3, 0xe8])
        ++ List.replicate 47 0 ++ [0x30, 0x31] ++ [0x1234 / 256, 0x1234 % 256] :=
  callFrame_layout 0xa8 [0, 0, 3, 0xe8] 0x1234 (by decide) (by decide)

/-- Witness for C1 at a concrete stream: two stale frames (identifiers 5 and
65535) precede the matching frame (identifier 7). -/
theorem findResponse_first_match_witness :
    findResponse 7
      [List.replicate 60 0 ++ [0, 5],
       List.replicate 60 0 ++ [255, 255],
       List.replicate 60 0 ++ [0, 7],
       List.replicate 60 0 ++ [0, 7] ++ []] =
      some (List.replicate 60 0 ++ [0, 7]) := by
  exact findResponse_first_match 7
    [List.replicate 60 0 ++ [0, 5], List.replicate 60 0 ++ [255, 255]]
    [List.replicate 60 0 ++ [0, 7] ++ []]
    (List.replicate 60 0 ++ [0, 7])
    (by intro g hg; simp only [List.mem_cons, List.not_mem_nil] at hg
        rcases hg with h | h | h
        · subst h; decide
        · subst h; decide
        · exact absurd h (by simp))
    (by decide)

end Nikon

namespace Nikon

/-- Closed form of the identifier sequence: the source advances the counter
modulo `0xffff` = 65535. -/
theorem requestIdAt_eq (start : Nat) (h : start < 0xffff) (k : Nat) :
    requestIdAt start k = (start + k) % 0xffff := by
  induction k with
  | zero => simp [requestIdAt, Nat.mod_eq_of_lt h]
  | succ k ih =>
    rw [requestIdAt, Function.iterate_succ_apply', ← requestIdAt, ih]
    simp only [nextRequestNumber]
    omega

/-- Counterexample to C4: with starting counter value 0, the identifier
issued by request number 65536 is 1, not the first identifier 0, and the
identifiers of requests 0 and 65535 coincide, so the 65536 identifiers of
one claimed period are not pairwise distinct: the counter wraps modulo
65535, not 65536. -/
theorem requestId_not_period_65536 :
    ¬ (requestIdAt 0 65536 = requestIdAt 0 0 ∧
       ∀ i j, i < 65536 → j < 65536 →
         requestIdAt 0 i = requestIdAt 0 j → i = j) := by
  intro h
  have h1 := requestIdAt_eq 0 (by decide) 65535
  have h2 := requestIdAt_eq 0 (by decide) 0
  have h3 := h.2 0 65535 (by decide) (by decide) (by rw [h1, h2])
  exact absurd h3 (by decide)

/-- C4 amended: the sequence identifier wraps modulo 65535 (`0xffff`), not
65536: for every starting counter value below 65535, each request consumes
the current counter value and advances it by one modulo 65535, so after
exactly 65535 requests the identifier issued equals the first one ever
issued, and no two of the intervening 65535 identifiers are equal. -/
theorem requestId_period_65535 (start : Nat) (h : start < 0xffff) :
    requestIdAt start 65535 = requestIdAt start 0 ∧
    ∀ i j, i < 65535 → j < 65535 →
      requestIdAt start i = requestIdAt start j → i = j := by
  constructor
  · rw [requestIdAt_eq start h 65535, requestIdAt_eq start h 0]
    omega
  · intro i j hi hj hij
    rw [requestIdAt_eq start h i, requestIdAt_eq start h j] at hij
    omega

/-- Witness for the amended C4 at starting counter value 42. -/
theorem requestId_period_65535_witness :
    requestIdAt 42 65535 = requestIdAt 42 0 ∧
    ∀ i j, i < 65535 → j < 65535 →
      requestIdAt 42 i = requestIdAt 42 j → i = j :=
  requestId_period_65535 42 (by decide)

end Nikon

namespace Nikon

/-- C3: decoding any 64-byte status-event frame yields a `StatusEvent`
satisfying `condenser = condenser_raw - 1`,
`filter = (filter_shutter_byte & 0x0F) - 1`,
`shutter = (filter_shutter_byte >= 0x10)`, `objective = objective_raw - 1`,
`optical_path = optical_path_raw - 1`, `dia = (dia_raw - 1) / 2099`,
`zoom = zoom_raw - 0x40`, with `x`, `y`, `z` read as signed 32-bit
big-endian integers; and the spec's example frame decodes to objective 2,
condenser 0, filter 0, shutter true, optical path 1, z 1000, x 500, y 250,
dia = 1049/2099 (within one encoding step of the quoted ≈0.5002), zoom 1,
light true. -/
theorem decodeStatusEvent_spec (d : List Nat) (hd : d.length = 64) :
    (∃ ev, decodeStatusEvent d = some ev ∧
      ev.condenser = (byteAt d 4 : Int) - 1 ∧
      ev.filter = ((byteAt d 5 % 16 : Nat) : Int) - 1 ∧
      ev.shutter = decide (byteAt d 5 ≥ 0x10) ∧
      ev.objective = (byteAt d 3 : Int) - 1 ∧
      ev.optical_path = (byteAt d 8 : Int) - 1 ∧
      ev.dia = ((u16at d 34 : ℚ) - 1) / 2099 ∧
      ev.zoom = (byteAt d 44 : Int) - 0x40 ∧
      ev.x = i32at d 18 ∧ ev.y = i32at d 26 ∧ ev.z = i32at d 10 ∧
      ev.light = decide (byteAt d 36 ≠ 0)) ∧
    (∃ ev, decodeStatusEvent exampleStatusFrame = some ev ∧
      ev.objective = 2 ∧ ev.condenser = 0 ∧ ev.filter = 0 ∧
      ev.shutter = true ∧ ev.optical_path = 1 ∧ ev.z = 1000 ∧
      ev.x = 500 ∧ ev.y = 250 ∧ ev.dia = 1049 / 2099 ∧
      |ev.dia - 5002 / 10000| < 1 / 2099 ∧ ev.zoom = 1 ∧ ev.light = true) := by
  have hdec : decodeStatusEvent exampleStatusFrame =
      some { condenser := 0, dia := 1049 / 2099, filter := 0, light := true,
             objective := 2, optical_path := 1, shutter := true,
             x := 500, y := 250, z := 1000, zoom := 1 } := by
    have hlen : exampleStatusFrame.length = 64 := by decide
    have h34 : u16at exampleStatusFrame 34 = 1050 := by decide
    rw [decodeStatusEvent, if_pos hlen]
    refine congrArg some ?_
    simp only [StatusEvent.mk.injEq, h34]
    refine ⟨by decide, by norm_num, by decide, by decide, by decide, by decide,
      by decide, by decide, by decide, by decide, by decide⟩
  constructor
  · exact ⟨_, if_pos hd, rfl, rfl, rfl, rfl, rfl, rfl, rfl, rfl, rfl, rfl, rfl⟩
  · refine ⟨_, hdec, rfl, rfl, rfl, rfl, rfl, rfl, rfl, rfl, rfl, ?_, rfl, rfl⟩
    rw [abs_sub_lt_iff]
    constructor <;> norm_num

/-- Witness for C3 at the spec's example frame. -/
theorem decodeStatusEvent_spec_witness :
    (∃ ev, decodeStatusEvent exampleStatusFrame = some ev ∧
      ev.condenser = (byteAt exampleStatusFrame 4 : Int) - 1 ∧
      ev.filter = ((byteAt exampleStatusFrame 5 % 16 : Nat) : Int) - 1 ∧
      ev.shutter = decide (byteAt exampleStatusFrame 5 ≥ 0x10) ∧
      ev.objective = (byteAt exampleStatusFrame 3 : Int) - 1 ∧
      ev.optical_path = (byteAt exampleStatusFrame 8 : Int) - 1 ∧
      ev.dia = ((u16at exampleStatusFrame 34 : ℚ) - 1) / 2099 ∧
      ev.zoom = (byteAt exampleStatusFrame 44 : Int) - 0x40 ∧
      ev.x = i32at exampleStatusFrame 18 ∧
      ev.y = i32at exampleStatusFrame 26 ∧
      ev.z = i32at exampleStatusFrame 10 ∧
      ev.light = decide (byteAt exampleStatusFrame 36 ≠ 0)) ∧
    (∃ ev, decodeStatusEvent exampleStatusFrame = some ev ∧
      ev.objective = 2 ∧ ev.condenser = 0 ∧ ev.filter = 0 ∧
      ev.shutter = true ∧ ev.optical_path = 1 ∧ ev.z = 1000 ∧
      ev.x = 500 ∧ ev.y = 250 ∧ ev.dia = 1049 / 2099 ∧
      |ev.dia - 5002 / 10000| < 1 / 2099 ∧ ev.zoom = 1 ∧ ev.light = true) :=
  decodeStatusEvent_spec exampleStatusFrame (by decide)

end Nikon

namespace Nikon

/-- C5: every setter with a documented range — objective 0–5, filter 0–5,
condenser 0–6, optical path 0–3, diaphragm fraction in [0, 1] — fails with
an `OutOfRange` error on any input outside that range, producing no
transport write (the `.error` result carries no frame). -/
theorem setters_reject_out_of_range (reqId : Nat) (v w u : Int) (q : ℚ)
    (hv : ¬ (0 ≤ v ∧ v < 6)) (hw : ¬ (0 ≤ w ∧ w < 7))
    (hu : ¬ (0 ≤ u ∧ u < 4)) (hq : ¬ (0 ≤ q ∧ q ≤ 1)) :
    set_objective reqId v = .error .outOfRange ∧
    set_filter reqId v = .error .outOfRange ∧
    set_condenser reqId w = .error .outOfRange ∧
    set_optical_path reqId u = .error .outOfRange ∧
    set_dia reqId q = .error .outOfRange := by
  exact ⟨by rw [set_objective, if_neg hv], by rw [set_filter, if_neg hv],
    by rw [set_condenser, if_neg hw], by rw [set_optical_path, if_neg hu],
    by rw [set_dia, if_neg hq]⟩

/-- Witness for C5 at the spec's own examples: `set_objective 6`,
`set_filter 6`, `set_condenser 7`, `set_optical_path 4`, `set_dia 1.1`. -/
theorem setters_reject_out_of_range_witness :
    set_objective 0 6 = .error .outOfRange ∧
    set_filter 0 6 = .error .outOfRange ∧
    set_condenser 0 7 = .error .outOfRange ∧
    set_optical_path 0 4 = .error .outOfRange ∧
    set_dia 0 (11 / 10) = .error .outOfRange :=
  setters_reject_out_of_range 0 6 7 4 (11 / 10)
    (by omega) (by omega) (by omega) (by norm_num)

/-- Python's `round` is within half a unit of its argument. -/
theorem abs_pyRound_sub_le (q : ℚ) : |(pyRound q : ℚ) - q| ≤ 1 / 2 := by
  have hfl : (⌊q⌋ : ℚ) ≤ q := Int.floor_le q
  have hfu : q < ⌊q⌋ + 1 := Int.lt_floor_add_one q
  rw [pyRound]
  split_ifs with h1 h2 h3 <;>
    (rw [abs_le]; constructor <;> push_cast <;> linarith)

/-- C6: for every diaphragm fraction `v ∈ [0, 1]`, encoding with
`round(v * 2099.0 + 1.0)` and decoding with `(raw - 1) / 2099.0` recovers
`v` to within one encoding step: `|decode (encode v) - v| ≤ 1/(2*2099)`. -/
theorem dia_roundtrip (v : ℚ) (h0 : 0 ≤ v) (h1 : v ≤ 1) :
    |decodeDia (encodeDia v) - v| ≤ 1 / (2 * 2099) := by
  have h := abs_pyRound_sub_le (v * 2099 + 1)
  have heq : decodeDia (encodeDia v) - v
      = ((pyRound (v * 2099 + 1) : ℚ) - (v * 2099 + 1)) / 2099 := by
    rw [decodeDia, encodeDia]; ring
  rw [heq, abs_div, abs_of_pos (by norm_num : (0 : ℚ) < 2099)]
  rw [div_le_div_iff₀ (by norm_num) (by norm_num)]
  nlinarith [h]

/-- Witness for C6 at `v = 1/2`. -/
theorem dia_roundtrip_witness :
    |decodeDia (encodeDia (1 / 2)) - 1 / 2| ≤ 1 / (2 * 2099) :=
  dia_roundtrip (1 / 2) (by norm_num) (by norm_num)

/-- The timeout loop keeps the most recent event and returns it at the
first timed-out read, regardless of what follows the timeout. -/
theorem stableLoop_append (e : StatusEvent) (es : List StatusEvent)
    (rest : List (Option StatusEvent)) :
    stableLoop e (es.map some ++ none :: rest) = some (es.getLastD e) := by
  induction es generalizing e with
  | nil => simp [stableLoop]
  | cons f fs ih =>
    simp only [List.map_cons, List.cons_append, stableLoop, List.getLastD_cons]
    exact ih f

/-- C7: for every sequence of successfully read events (`e0`, then `es`)
followed by a timed-out read, `get_stable_status` returns the last event
read before the gap — never one of the reads in `rest` that follow it. -/
theorem get_stable_status_returns_last (e0 : StatusEvent)
    (es : List StatusEvent) (rest : List (Option StatusEvent)) :
    get_stable_status (some e0 :: (es.map some ++ none :: rest)) =
      some (.ok (es.getLastD e0)) := by
  simp [get_stable_status, stableLoop_append]

/-- C8: if the very first read of `get_stable_status` times out, the call
fails with `NoStatus`, which is distinct from every normal settle-detection
return value. -/
theorem get_stable_status_no_status (rest : List (Option StatusEvent)) :
    get_stable_status (none :: rest) = some (.error .noStatus) ∧
    ∀ ev : StatusEvent,
      (Except.error NikonError.noStatus : Except NikonError StatusEvent) ≠
        Except.ok ev :=
  ⟨rfl, fun _ h => Except.noConfusion h⟩

/-- C9 evidence: the stage-bound queries (`get_x_bounds`, `get_y_bounds`,
`get_z_bound`, via `_get_bound`) issue their requests without holding the
per-device lock, while every other public command-issuing operation holds
it from identifier allocation through response correlation — the code
violates the claimed end-to-end exclusivity exactly on the bound
queries. -/
theorem lock_discipline :
    wellLocked get_x_bounds_actions = false ∧
    wellLocked get_y_bounds_actions = false ∧
    wellLocked get_z_bound_actions = false ∧
    wellLocked get_firmware_cpu_version_actions = true ∧
    wellLocked get_version_actions = true ∧
    wellLocked get_label_actions = true ∧
    wellLocked get_objective_info_actions = true ∧
    wellLocked set_x_actions = true ∧
    wellLocked set_y_actions = true ∧
    wellLocked set_z_actions = true ∧
    wellLocked set_condenser_actions = true ∧
    wellLocked set_dia_actions = true ∧
    wellLocked set_filter_actions = true ∧
    wellLocked set_light_actions = true ∧
    wellLocked set_objective_actions = true ∧
    wellLocked set_optical_path_actions = true ∧
    wellLocked set_shutter_actions = true ∧
    wellLocked set_button_function_actions = true := by
  decide

/-- Round-trip of the big-endian signed 32-bit encoding used by
`set_x`/`set_y`/`set_z`. -/
theorem i32at_i32be (v : Int) (h : -2 ^ 31 ≤ v ∧ v < 2 ^ 31) :
    i32at (i32be v) 0 = v := by
  simp only [i32be, i32at, byteAt, toSigned32, List.getD, List.get?,
    Option.getD_some]
  split_ifs <;> omega

/-- C10: the stage position setters perform no range validation — for
every signed 32-bit value they succeed (and for every integer at all they
never fail with `OutOfRange`), encode the value as a big-endian signed
32-bit integer (`i32at (i32be v) 0 = v`), and issue the command under the
lock. -/
theorem set_xyz_unvalidated (reqId : Nat) (v : Int)
    (hv : -2 ^ 31 ≤ v ∧ v < 2 ^ 31) :
    set_x reqId v = .ok (callFrame 0xa8 (i32be v) reqId) ∧
    set_y reqId v = .ok (callFrame 0xac (i32be v) reqId) ∧
    set_z reqId v = .ok (callFrame 0xa0 (i32be v) reqId) ∧
    i32at (i32be v) 0 = v ∧
    (∀ w : Int, set_x reqId w ≠ .error .outOfRange ∧
      set_y reqId w ≠ .error .outOfRange ∧
      set_z reqId w ≠ .error .outOfRange) ∧
    wellLocked set_x_actions = true ∧
    wellLocked set_y_actions = true ∧
    wellLocked set_z_actions = true := by
  have hpack : packI32 v = .ok (i32be v) := by rw [packI32, if_pos hv]
  refine ⟨by rw [set_x, hpack]; rfl, by rw [set_y, hpack]; rfl,
    by rw [set_z, hpack]; rfl,
    i32at_i32be v hv, ?_, by decide, by decide, by decide⟩
  intro w
  refine ⟨?_, ?_, ?_⟩ <;>
    (simp only [set_x, set_y, set_z, packI32]
     split_ifs <;> simp [Except.map])

/-- Witness for C10 at `value = -1`. -/
theorem set_xyz_unvalidated_witness :
    set_x 9 (-1) = .ok (callFrame 0xa8 (i32be (-1)) 9) ∧
    set_y 9 (-1) = .ok (callFrame 0xac (i32be (-1)) 9) ∧
    set_z 9 (-1) = .ok (callFrame 0xa0 (i32be (-1)) 9) ∧
    i32at (i32be (-1)) 0 = -1 ∧
    (∀ w : Int, set_x 9 w ≠ .error .outOfRange ∧
      set_y 9 w ≠ .error .outOfRange ∧
      set_z 9 w ≠ .error .outOfRange) ∧
    wellLocked set_x_actions = true ∧
    wellLocked set_y_actions = true ∧
    wellLocked set_z_actions = true :=
  set_xyz_unvalidated 9 (-1) (by norm_num)

end Nikon
